import Mathlib

/-!
Verification development for the pokebot spawn lifecycle and capture engine.

Shallow embedding of the code in `bot/services/spawn_service.py`,
`bot/services/fast_spawn_service.py`, `bot/services/scheduler_service.py`
and `bot/handlers/spawn.py`.

Modelling conventions:
* Timestamps (`datetime.utcnow()`, `time.time()`, SQL `NOW()`) are integers,
  measured in seconds; `timedelta(minutes=8)` is `480`, `timedelta(minutes=10)`
  is `600`.
* Each `random.random()` / `random.randint` / `random.choice` draw is passed in
  as an explicit argument of the modelled function.  A `random.random()` draw
  is a rational in `[0, 1)`; probability constants such as `0.95` are written
  `Rat.divInt 95 100` (provably equal to `95/100`, see the sanity lemmas).
* A database transaction (`conn.transaction()`) is modelled as one atomic state
  transition: the whole `catch_spawn` body is a single step on the state.
* The `(bool, str)` results of the services are modelled as inductive outcome
  types; each constructor is annotated with the exact message string of the
  source it stands for.
* Sprite-URL decoration in `get_active_spawn` (the `image_url` field fetched
  from the external PokeAPI) is presentation-only I/O and is omitted.
-/

set_option maxRecDepth 8000

namespace Pokebot

/-- A row of the `spawns` table (`bot/models/sql_models.py`, class `Spawn`).
`rarity` is the string value of the `PokemonRarity` str-enum. -/
structure SpawnRec where
  spawn_id : String
  chat_id : Int
  species : String
  species_id : Nat
  level : Nat
  is_shiny : Bool
  rarity : String
  spawned_at : Int
  expires_at : Int
  is_caught : Bool
  caught_by : Option Int := none
  caught_at : Option Int := none
  deriving DecidableEq, Repr

/-- A row of the `pokemon` table, restricted to the columns the two
`catch_spawn` INSERT statements write. -/
structure PokemonRec where
  pokemon_id : String
  owner_id : Int
  species : String
  species_id : Nat
  level : Nat
  experience : Int
  hp : Nat
  attack : Nat
  defense : Nat
  special_attack : Nat
  special_defense : Nat
  speed : Nat
  nature : String
  ability : String
  is_shiny : Bool
  rarity : String
  deriving DecidableEq, Repr

/-- A row of the `users` table, restricted to the columns touched by
`catch_spawn`. -/
structure UserRec where
  user_id : Int
  username : String
  first_name : String
  coins : Int
  experience : Int
  level : Nat
  pokemon_caught : Int
  total_pokemon : Int
  deriving DecidableEq, Repr

/-- The durable store: the three tables the spawn/capture engine touches. -/
structure DB where
  spawns : List SpawnRec
  pokemon : List PokemonRec
  users : List UserRec
  deriving DecidableEq, Repr

namespace SpawnService

/-- Outcome of `SpawnService.catch_spawn` (`spawn_service.py:144-211`).
Each constructor corresponds to one `(bool, message)` return of the source:
* `captured pid` — `(True, pokemon_id)`
* `notFound` — `(False, "Spawn not found")`
* `alreadyCaught` — `(False, "This Pokémon has already been caught!")`
* `fled` — `(False, "This Pokémon has fled!")`
* `brokeFree` — `(False, "The Pokémon broke free!")` -/
inductive Outcome where
  | captured (pokemonId : String)
  | notFound
  | alreadyCaught
  | fled
  | brokeFree
  deriving DecidableEq, Repr

/-- Whether an outcome is the `Captured` path (source returned `True`). -/
def Outcome.isCaptured : Outcome → Bool
  | .captured _ => true
  | _ => false

/-- The catch rate of `spawn_service.py:169`:
`0.95 if rarity == "common" else 0.90 if rarity == "rare" else 0.85`. -/
def catchRate (rarity : String) : ℚ :=
  if rarity == "common" then .divInt 95 100
  else if rarity == "rare" then .divInt 90 100
  else .divInt 85 100

/-- The spawn-row update of `spawn_service.py:176-180`:
`UPDATE spawns SET is_caught = TRUE, caught_by = $2, caught_at = $3
 WHERE spawn_id = $1`. -/
def markCaught (userId : Int) (now : Int) (spawnId : String) (t : SpawnRec) : SpawnRec :=
  if t.spawn_id == spawnId then
    { t with is_caught := true, caught_by := some userId, caught_at := some now }
  else t

/-- The pokemon row inserted by `spawn_service.py:183-195`. -/
def newPokemon (pokemonId : String) (userId : Int) (s : SpawnRec) : PokemonRec :=
  { pokemon_id := pokemonId, owner_id := userId, species := s.species,
    species_id := s.species_id, level := s.level, experience := 0,
    hp := s.level * 2 + 100, attack := s.level * 2 + 50, defense := s.level * 2 + 50,
    special_attack := s.level * 2 + 50, special_defense := s.level * 2 + 50,
    speed := s.level * 2 + 50, nature := "hardy", ability := "unknown",
    is_shiny := s.is_shiny, rarity := s.rarity }

/-- The user-stats update of `spawn_service.py:198-204`:
`UPDATE users SET pokemon_caught = pokemon_caught + 1,
 total_pokemon = total_pokemon + 1, experience = experience + $2
 WHERE user_id = $1` with `$2 = level * 10`. -/
def bumpUserStats (userId : Int) (exp : Int) (u : UserRec) : UserRec :=
  if u.user_id == userId then
    { u with pokemon_caught := u.pokemon_caught + 1,
             total_pokemon := u.total_pokemon + 1,
             experience := u.experience + exp }
  else u

/-- Model of `SpawnService.catch_spawn` (`spawn_service.py:144-211`).
`roll` is the `random.random()` draw of line 172; `newPokeId` is the
`generate_id("poke_")` result of line 183; `now` stands for the
`datetime.utcnow()` reads inside the transaction. -/
def catch_spawn (db : DB) (spawnId : String) (userId : Int)
    (now : Int) (roll : ℚ) (newPokeId : String) : Outcome × DB :=
  match db.spawns.find? (fun s => s.spawn_id == spawnId) with
  | none => (.notFound, db)
  | some s =>
    if s.is_caught then (.alreadyCaught, db)
    else if s.expires_at < now then (.fled, db)
    else if roll > catchRate s.rarity then (.brokeFree, db)
    else
      (.captured newPokeId,
        { spawns := db.spawns.map (markCaught userId now spawnId),
          pokemon := db.pokemon ++ [newPokemon newPokeId userId s],
          users := db.users.map (bumpUserStats userId (s.level * 10)) })

/-- The duplicate check of `spawn_service.py:55-60` (also
`fast_spawn_service.py:34-40`, identical up to `NOW()` spelling):
`SELECT ... FROM spawns WHERE chat_id = $1 AND is_caught = FALSE AND
 expires_at > $2 LIMIT 1`. -/
def hasActiveSpawn (db : DB) (chatId : Int) (now : Int) : Bool :=
  db.spawns.any (fun s => s.chat_id == chatId && !s.is_caught && decide (now < s.expires_at))

/-- Model of `SpawnService.create_spawn` (`spawn_service.py:48-108`).
`catalog` is `_get_cached_pokemon_data`, returning the species name on
success (`pokemon_data['name']`); `speciesId1` is the `random.randint(1, 1010)`
draw, `fallbackId` the `random.randint(1, 151)` fallback draw, `level` the
`random.randint(1, 50)` draw, `shinyRoll` the `random.random()` draw of
line 65 (threshold `0.002`), `spawnId` the `generate_id("spawn_")` result.
Returns the created spawn (`None` on duplicate or catalog failure) and the
new store state. -/
def create_spawn (db : DB) (chatId : Int) (now : Int)
    (catalog : Nat → Option String) (speciesId1 fallbackId level : Nat)
    (shinyRoll : ℚ) (spawnId : String) : Option SpawnRec × DB :=
  if hasActiveSpawn db chatId now then (none, db)
  else
    let isShiny := shinyRoll < .divInt 2 1000
    let rarity := if isShiny then "rare" else "common"
    let looked : Option (Nat × String) :=
      match catalog speciesId1 with
      | some name => some (speciesId1, name)
      | none =>
        match catalog fallbackId with
        | some name => some (fallbackId, name)
        | none => none
    match looked with
    | none => (none, db)
    | some (sid, name) =>
      let spawn : SpawnRec :=
        { spawn_id := spawnId, chat_id := chatId, species := name,
          species_id := sid, level := level, is_shiny := isShiny,
          rarity := rarity, spawned_at := now, expires_at := now + 480,
          is_caught := false }
      (some spawn, { db with spawns := db.spawns ++ [spawn] })

end SpawnService

namespace RawSQLSpawnService

/-- A value of the `_spawn_cache` dict of `RawSQLSpawnService`
(`fast_spawn_service.py:18`).  The entry written by `create_spawn`
(lines 59-65) has no `species_id`/`spawned_at` key; the entry written by
`get_active_spawn` (lines 101-109, 123) has both.  Missing keys are `none`.
The `image_url` decoration is omitted (external sprite fetch). -/
structure CachedSpawn where
  spawn_id : String
  species : String
  species_id : Option Nat := none
  level : Nat
  is_shiny : Bool
  rarity : String
  spawned_at : Option Int := none
  deriving DecidableEq, Repr

/-- The `_spawn_cache` dict, keyed by `chat_id`. -/
abbrev Cache := List (Int × CachedSpawn)

/-- Lookup: `chat_id in self._spawn_cache` / `self._spawn_cache[chat_id]`. -/
def Cache.lookup (c : Cache) (chatId : Int) : Option CachedSpawn :=
  (List.find? (fun p => p.1 == chatId) c).map (·.2)

/-- Write: `self._spawn_cache[chat_id] = data` (overwrites any previous entry). -/
def Cache.store (c : Cache) (chatId : Int) (d : CachedSpawn) : Cache :=
  (chatId, d) :: List.filter (fun p => !(p.1 == chatId)) c

/-- Deletion: `del self._spawn_cache[chat_id]` guarded by
`if chat_id in self._spawn_cache` (`fast_spawn_service.py:234-235`). -/
def Cache.erase (c : Cache) (chatId : Int) : Cache :=
  List.filter (fun p => !(p.1 == chatId)) c

/-- Process state of `RawSQLSpawnService`: the durable store plus the
process-local `_spawn_cache`. -/
structure FastState where
  db : DB
  cache : Cache
  deriving DecidableEq

/-- Outcome of `RawSQLSpawnService.catch_spawn` (`fast_spawn_service.py:173-244`).
Constructors correspond to the `(bool, message)` returns of the source:
* `captured species exp coins` —
  `(True, f"Caught {species}! (+{exp} EXP (+{coins} coins))")`
* `disappeared` — `(False, "This Pokémon has disappeared!")`
* `alreadyCaught` — `(False, "Already caught by someone else!")`
* `escaped` — `(False, f"{species} escaped! Try again!")` -/
inductive FOutcome where
  | captured (species : String) (exp coins : Int)
  | disappeared
  | alreadyCaught
  | escaped
  deriving DecidableEq, Repr

/-- Whether a fast-service outcome is the `Captured` path. -/
def FOutcome.isCaptured : FOutcome → Bool
  | .captured _ _ _ => true
  | _ => false

/-- The default user row inserted by the `ON CONFLICT (user_id) DO NOTHING`
INSERT of `fast_spawn_service.py:201-205`. -/
def defaultUser (userId : Int) : UserRec :=
  { user_id := userId, username := "trainer", first_name := "Unknown",
    coins := 1000, experience := 0, level := 1,
    pokemon_caught := 0, total_pokemon := 0 }

/-- The pokemon row inserted by `fast_spawn_service.py:208-219`. -/
def newFastPokemon (pokemonId : String) (userId : Int) (s : SpawnRec) : PokemonRec :=
  { pokemon_id := pokemonId, owner_id := userId, species := s.species,
    species_id := s.species_id, level := s.level, experience := 0,
    hp := s.level * 3 + 50, attack := s.level * 2 + 30, defense := s.level * 2 + 30,
    special_attack := s.level * 2 + 30, special_defense := s.level * 2 + 30,
    speed := s.level * 2 + 30, nature := "hardy", ability := "unknown",
    is_shiny := s.is_shiny, rarity := s.rarity }

/-- The user-stats update of `fast_spawn_service.py:224-231` (adds coins as
well as experience). -/
def bumpFastUserStats (userId : Int) (exp coins : Int) (u : UserRec) : UserRec :=
  if u.user_id == userId then
    { u with pokemon_caught := u.pokemon_caught + 1,
             total_pokemon := u.total_pokemon + 1,
             experience := u.experience + exp,
             coins := u.coins + coins }
  else u

/-- Model of `RawSQLSpawnService.catch_spawn` (`fast_spawn_service.py:173-244`).
The SELECT of lines 179-182 filters `spawn_id = $1 AND expires_at > NOW()`;
`roll` is the `random.random()` draw of line 192 (success iff `roll > 0.02`,
the "98% success rate"); `newPokeId` is the generated pokemon id of line 208. -/
def catch_spawn (st : FastState) (spawnId : String) (userId : Int)
    (now : Int) (roll : ℚ) (newPokeId : String) : FOutcome × FastState :=
  match st.db.spawns.find? (fun s => s.spawn_id == spawnId && decide (now < s.expires_at)) with
  | none => (.disappeared, st)
  | some s =>
    if s.is_caught then (.alreadyCaught, st)
    else if roll > .divInt 2 100 then
      let users0 :=
        if st.db.users.any (fun u => u.user_id == userId) then st.db.users
        else st.db.users ++ [defaultUser userId]
      let exp : Int := s.level * 10
      let coins : Int := s.level * 5 + (if s.is_shiny then 100 else 0)
      (.captured s.species exp coins,
        { db := { spawns := st.db.spawns.map (SpawnService.markCaught userId now spawnId),
                  pokemon := st.db.pokemon ++ [newFastPokemon newPokeId userId s],
                  users := users0.map (bumpFastUserStats userId exp coins) },
          cache := st.cache.erase s.chat_id })
    else (.escaped, st)

/-- Model of `RawSQLSpawnService.create_spawn` (`fast_spawn_service.py:29-72`).
`speciesName` is the `random.choice(self._pokemon_names)` draw, `speciesId`
the `random.randint(1, 800)` draw, `level` the `random.randint(1, 50)` draw,
`shinyRoll` the `random.random()` draw of line 46 (threshold `0.005`),
`rarityPick` the `random.choice(['common', 'uncommon', 'rare'])` draw,
`spawnId` the generated spawn id.  Expiry window is 10 minutes (line 50). -/
def create_spawn (st : FastState) (chatId : Int) (now : Int)
    (speciesName : String) (speciesId level : Nat) (shinyRoll : ℚ)
    (rarityPick : String) (spawnId : String) : Bool × FastState :=
  if SpawnService.hasActiveSpawn st.db chatId now then (false, st)
  else
    let isShiny := shinyRoll < .divInt 5 1000
    let rarity := if isShiny then "legendary" else rarityPick
    let spawn : SpawnRec :=
      { spawn_id := spawnId, chat_id := chatId, species := speciesName,
        species_id := speciesId, level := level, is_shiny := isShiny,
        rarity := rarity, spawned_at := now, expires_at := now + 600,
        is_caught := false }
    let cached : CachedSpawn :=
      { spawn_id := spawnId, species := speciesName, level := level,
        is_shiny := isShiny, rarity := rarity }
    (true, { db := { st.db with spawns := st.db.spawns ++ [spawn] },
             cache := st.cache.store chatId cached })

/-- The store read of `get_active_spawn` (`fast_spawn_service.py:93-98`):
`SELECT ... WHERE chat_id = $1 AND is_caught = false AND expires_at > NOW()
 ORDER BY spawned_at DESC LIMIT 1`. -/
def latestActive (spawns : List SpawnRec) (chatId : Int) (now : Int) : Option SpawnRec :=
  (spawns.filter
      (fun s => s.chat_id == chatId && !s.is_caught && decide (now < s.expires_at))).foldl
    (fun acc s =>
      match acc with
      | none => some s
      | some b => if s.spawned_at > b.spawned_at then some s else some b)
    none

/-- Model of `RawSQLSpawnService.get_active_spawn` (`fast_spawn_service.py:74-130`).
A cache hit (`if chat_id in self._spawn_cache`, line 78) is returned directly;
only on a cache miss is the store queried and the cache repopulated. -/
def get_active_spawn (st : FastState) (chatId : Int) (now : Int) :
    Option CachedSpawn × FastState :=
  match st.cache.lookup chatId with
  | some cached => (some cached, st)
  | none =>
    match latestActive st.db.spawns chatId now with
    | some s =>
      let d : CachedSpawn :=
        { spawn_id := s.spawn_id, species := s.species,
          species_id := some s.species_id, level := s.level,
          is_shiny := s.is_shiny, rarity := s.rarity,
          spawned_at := some s.spawned_at }
      (some d, { st with cache := st.cache.store chatId d })
    | none => (none, st)

end RawSQLSpawnService

namespace Handlers

/-- Model of `is_admin` (`bot/utils/helpers.py:213-216`):
`user_id in settings.ADMIN_IDS`.  `adminIds` is the environment-configured
`settings.ADMIN_IDS` list. -/
def is_admin (adminIds : List Int) (userId : Int) : Bool :=
  adminIds.contains userId

/-- The `user_cooldowns` dict of `bot/handlers/spawn.py:15`, keyed by user id
(the source key is the string `f"spawn_{user.id}"`, which is in bijection with
the user id). -/
abbrev Cooldowns := List (Int × Int)

/-- Lookup: `cooldown_key in user_cooldowns` / `user_cooldowns[cooldown_key]`. -/
def Cooldowns.lookup (c : Cooldowns) (userId : Int) : Option Int :=
  (List.find? (fun p => p.1 == userId) c).map (·.2)

/-- Write: `user_cooldowns[cooldown_key] = now`. -/
def Cooldowns.store (c : Cooldowns) (userId : Int) (now : Int) : Cooldowns :=
  (userId, now) :: List.filter (fun p => !(p.1 == userId)) c

/-- The cooldown check-and-record step of `spawn_handler`
(`bot/handlers/spawn.py:29-41`, the body of the non-admin branch): reject
without recording when a prior record is younger than 30 seconds, otherwise
record `now` and proceed.  Returns `(allowed, new cooldown map)`. -/
def tryConsume (c : Cooldowns) (userId : Int) (now : Int) : Bool × Cooldowns :=
  match c.lookup userId with
  | some last => if now - last < 30 then (false, c) else (true, c.store userId now)
  | none => (true, c.store userId now)

/-- The cooldown gate of `spawn_handler` (`bot/handlers/spawn.py:27-41`):
the whole check-and-record step runs only under `if not is_admin(user.id)`. -/
def spawnCooldownGate (adminIds : List Int) (c : Cooldowns) (userId : Int)
    (now : Int) : Bool × Cooldowns :=
  if is_admin adminIds userId then (true, c) else tryConsume c userId now

end Handlers

namespace Scheduler

/-- What one iteration body of `FastSchedulerService._spawn_loop`
(`scheduler_service.py:53-80`) did: `ok created` when the `try` block ran to
completion (`created` is the `create_spawn` result), `err` when any statement
inside the `try` block raised. -/
inductive IterResult where
  | ok (created : Bool)
  | err
  deriving DecidableEq, Repr

/-- What the loop does after one iteration: sleep some seconds and go around
again, or stop (fall out of `while self.running`). -/
inductive LoopAction where
  | sleepThenContinue (secs : Nat)
  | stopped
  deriving DecidableEq, Repr

/-- One iteration of `_spawn_loop` (`scheduler_service.py:55-80`): while the
`running` flag is set, an empty channel set sleeps 5 s and re-checks, a normal
iteration sleeps the randomized 30-60 s `interval`, and an exception anywhere
in the `try` block is caught by the `except` clause, sleeps 10 s, and
continues; the loop exits only when `running` is cleared. -/
def spawnLoopIter (running : Bool) (channelsEmpty : Bool) (res : IterResult)
    (interval : Nat) : LoopAction :=
  if !running then .stopped
  else
    match res with
    | .err => .sleepThenContinue 10
    | .ok _ => if channelsEmpty then .sleepThenContinue 5
               else .sleepThenContinue interval

/-- The behaviour of one loop iteration: the channel-set emptiness, the body
result, and the drawn sleep interval. -/
structure IterBehaviour where
  channelsEmpty : Bool
  res : IterResult
  interval : Nat
  deriving DecidableEq, Repr

/-- Run the spawn loop over a finite schedule of iteration behaviours with the
`running` flag held set: every scheduled iteration is executed and yields its
loop action. -/
def spawnLoopRun : List IterBehaviour → List LoopAction
  | [] => []
  | b :: rest => spawnLoopIter true b.channelsEmpty b.res b.interval :: spawnLoopRun rest

end Scheduler

/-- One capture attempt: the calling user, the wall-clock instant of the call,
the `random.random()` success draw, and the generated pokemon id. -/
structure CatchAttempt where
  userId : Int
  now : Int
  roll : ℚ
  pokeId : String
  deriving DecidableEq, Repr

/-- Run a batch of `SpawnService.catch_spawn` calls against the same
`spawn_id`.  Each transaction is atomic, so a batch of concurrent callers is
an arbitrary serialization: this runner executes them in list order (the list
order is universally quantified in the theorems). -/
def SpawnService.runCatches (spawnId : String) :
    DB → List CatchAttempt → List SpawnService.Outcome × DB
  | db, [] => ([], db)
  | db, a :: rest =>
    let step := SpawnService.catch_spawn db spawnId a.userId a.now a.roll a.pokeId
    let next := SpawnService.runCatches spawnId step.2 rest
    (step.1 :: next.1, next.2)

/-- Run a batch of `RawSQLSpawnService.catch_spawn` calls against the same
`spawn_id`, one atomic transaction after the other. -/
def RawSQLSpawnService.runCatches (spawnId : String) :
    RawSQLSpawnService.FastState → List CatchAttempt →
      List RawSQLSpawnService.FOutcome × RawSQLSpawnService.FastState
  | st, [] => ([], st)
  | st, a :: rest =>
    let step := RawSQLSpawnService.catch_spawn st spawnId a.userId a.now a.roll a.pokeId
    let next := RawSQLSpawnService.runCatches spawnId step.2 rest
    (step.1 :: next.1, next.2)

/-- Every spawn row carrying this `spawn_id` is marked caught: the state in
which the capture slot for the spawn has been consumed. -/
def allCaughtFor (spawnId : String) (l : List SpawnRec) : Prop :=
  ∀ t ∈ l, t.spawn_id = spawnId → t.is_caught = true

instance (spawnId : String) (l : List SpawnRec) : Decidable (allCaughtFor spawnId l) := by
  unfold allCaughtFor; infer_instance

end Pokebot

open Pokebot

theorem cooldowns_lookup_store (c : Handlers.Cooldowns) (u t : Int) :
    Handlers.Cooldowns.lookup (Handlers.Cooldowns.store c u t) u = some t := by
  simp [Handlers.Cooldowns.lookup, Handlers.Cooldowns.store, List.find?]

/-- C6: the manual-spawn cooldown check returns true and records the current
time when the user has no prior record or the prior record is at least the
30-second window old; otherwise it returns false without mutating the
cooldown state.  In particular a fresh user gets true, then immediately
false, then true again once the window has elapsed. -/
theorem cooldown_gate_try_consume (c : Handlers.Cooldowns) (u t : Int) :
    (Handlers.Cooldowns.lookup c u = none →
      Handlers.tryConsume c u t = (true, Handlers.Cooldowns.store c u t)) ∧
    (∀ last, Handlers.Cooldowns.lookup c u = some last → 30 ≤ t - last →
      Handlers.tryConsume c u t = (true, Handlers.Cooldowns.store c u t)) ∧
    (∀ last, Handlers.Cooldowns.lookup c u = some last → t - last < 30 →
      Handlers.tryConsume c u t = (false, c)) ∧
    (Handlers.Cooldowns.lookup c u = none →
      (Handlers.tryConsume c u t).1 = true ∧
      (Handlers.tryConsume (Handlers.tryConsume c u t).2 u t).1 = false ∧
      (Handlers.tryConsume (Handlers.tryConsume c u t).2 u (t + 30)).1 = true) := by
  refine ⟨?_, ?_, ?_, ?_⟩
  · intro h; simp [Handlers.tryConsume, h]
  · intro last h hold
    simp only [Handlers.tryConsume, h]
    rw [if_neg (by omega)]
  · intro last h hnew
    simp only [Handlers.tryConsume, h]
    rw [if_pos hnew]
  · intro h
    have h1 : Handlers.tryConsume c u t = (true, Handlers.Cooldowns.store c u t) := by
      simp [Handlers.tryConsume, h]
    refine ⟨by rw [h1], ?_, ?_⟩
    · rw [h1]
      simp only [Handlers.tryConsume, cooldowns_lookup_store]
      rw [if_pos (by omega)]
    · rw [h1]
      simp only [Handlers.tryConsume, cooldowns_lookup_store]
      rw [if_neg (by omega)]

/-- Witness for `cooldown_gate_try_consume` at a concrete fresh user. -/
theorem cooldown_gate_try_consume_witness :
    Handlers.tryConsume [] 1 100 = (true, [(1, 100)]) ∧
    (Handlers.tryConsume (Handlers.tryConsume [] 1 100).2 1 100).1 = false ∧
    (Handlers.tryConsume (Handlers.tryConsume [] 1 100).2 1 130).1 = true := by
  have h := cooldown_gate_try_consume [] 1 100
  have h4 := h.2.2.2 (by rfl)
  exact ⟨h.1 (by rfl), h4.2.1, h4.2.2⟩

/-- C10: a user whose id is in the configured `ADMIN_IDS` set is never
rejected for cooldown reasons and no cooldown timestamp is recorded for them:
the handler's cooldown check-and-record step is skipped entirely, for every
state of the cooldown map. -/
theorem admin_bypasses_cooldown (adminIds : List Int) (c : Handlers.Cooldowns)
    (u t : Int) (h : u ∈ adminIds) :
    Handlers.spawnCooldownGate adminIds c u t = (true, c) := by
  have hb : Handlers.is_admin adminIds u = true := by
    simpa [Handlers.is_admin] using h
  simp [Handlers.spawnCooldownGate, hb]

/-- Witness for `admin_bypasses_cooldown`: admin id 7, non-empty cooldown map
whose record for 7 is fresh (a non-admin would be rejected). -/
theorem admin_bypasses_cooldown_witness :
    Handlers.spawnCooldownGate [7] [(7, 95)] 7 100 = (true, [(7, 95)]) :=
  admin_bypasses_cooldown [7] [(7, 95)] 7 100 (by decide)

/-- C9: with the running flag set, every scheduled iteration of the spawn
loop yields a continue action: a failing iteration is caught at the loop
boundary and followed by a 10-second backoff sleep, and no iteration outcome
ever terminates the loop. -/
theorem scheduler_loop_resilience (sched : List Scheduler.IterBehaviour) :
    Scheduler.spawnLoopRun sched =
      sched.map (fun b => Scheduler.spawnLoopIter true b.channelsEmpty b.res b.interval) ∧
    (∀ e i, Scheduler.spawnLoopIter true e .err i = .sleepThenContinue 10) ∧
    (∀ e r i, Scheduler.spawnLoopIter true e r i ≠ .stopped) := by
  refine ⟨?_, fun e i => rfl, ?_⟩
  · induction sched with
    | nil => rfl
    | cons b rest ih => simp [Scheduler.spawnLoopRun, ih]
  · intro e r i
    cases r <;> cases e <;> simp [Scheduler.spawnLoopIter]

/-- Witness for `scheduler_loop_resilience`: a failed iteration backs off
10 seconds and the loop runs the following iteration. -/
theorem scheduler_loop_resilience_witness :
    Scheduler.spawnLoopRun [⟨false, .err, 42⟩, ⟨false, .ok true, 55⟩] =
      [.sleepThenContinue 10, .sleepThenContinue 55] ∧
    Scheduler.spawnLoopIter true false .err 42 = .sleepThenContinue 10 :=
  ⟨((scheduler_loop_resilience [⟨false, .err, 42⟩, ⟨false, .ok true, 55⟩]).1).trans (by rfl),
   (scheduler_loop_resilience []).2.1 false 42⟩

/-- Sanity: the `divInt` spellings of the probability constants equal the
decimal constants of the source. -/
theorem Pokebot.SpawnService.catchRate_values :
    Rat.divInt 95 100 = 95/100 ∧ Rat.divInt 90 100 = 90/100 ∧
    Rat.divInt 85 100 = 85/100 ∧ Rat.divInt 2 1000 = 2/1000 := by
  refine ⟨?_, ?_, ?_, ?_⟩ <;> rw [Rat.divInt_eq_div] <;> norm_num

example :
    (Pokebot.SpawnService.catch_spawn
      { spawns := [{ spawn_id := "s1", chat_id := 5, species := "pikachu",
                     species_id := 25, level := 7, is_shiny := false,
                     rarity := "common", spawned_at := 0, expires_at := 480,
                     is_caught := false }],
        pokemon := [], users := [] }
      "s1" 42 100 (.divInt 1 2) "p1").1 = .captured "p1" := by decide

theorem beq_spawn_id_of_find? {l : List SpawnRec} {sid : String} {s : SpawnRec}
    (h : l.find? (fun t => t.spawn_id == sid) = some s) :
    s ∈ l ∧ s.spawn_id = sid := by
  refine ⟨List.mem_of_find?_eq_some h, ?_⟩
  have hp := List.find?_some h
  simpa using hp

/-- C2: a `catch_spawn` call against a spawn id whose every row has
`expires_at` before the current time returns a non-Captured failure outcome
and performs no write, in both service variants — whether or not the expired
row has been cleaned up yet. -/
theorem expiry_hard_stop (db : DB) (st : RawSQLSpawnService.FastState)
    (sid : String) (uid : Int) (now : Int) (roll : ℚ) (pid : String)
    (h1 : ∀ s ∈ db.spawns, s.spawn_id = sid → s.expires_at < now)
    (h2 : ∀ s ∈ st.db.spawns, s.spawn_id = sid → s.expires_at < now) :
    ((SpawnService.catch_spawn db sid uid now roll pid).1.isCaptured = false ∧
     (SpawnService.catch_spawn db sid uid now roll pid).2 = db) ∧
    ((RawSQLSpawnService.catch_spawn st sid uid now roll pid).1 =
       .disappeared ∧
     (RawSQLSpawnService.catch_spawn st sid uid now roll pid).2 = st) := by
  constructor
  · cases hf : db.spawns.find? (fun t => t.spawn_id == sid) with
    | none => simp [SpawnService.catch_spawn, hf, SpawnService.Outcome.isCaptured]
    | some s =>
      obtain ⟨hmem, hsid⟩ := beq_spawn_id_of_find? hf
      have hexp : s.expires_at < now := h1 s hmem hsid
      by_cases hc : s.is_caught
      · simp [SpawnService.catch_spawn, hf, hc, SpawnService.Outcome.isCaptured]
      · simp [SpawnService.catch_spawn, hf, hc, hexp, SpawnService.Outcome.isCaptured]
  · have hnone : st.db.spawns.find?
        (fun s => s.spawn_id == sid && decide (now < s.expires_at)) = none := by
      rw [List.find?_eq_none]
      intro x hx
      by_cases hid : x.spawn_id = sid
      · have hexp := h2 x hx hid
        simp [hid, hexp, not_lt.mpr (le_of_lt hexp)]
      · simp [hid]
    simp [RawSQLSpawnService.catch_spawn, hnone]

/-- Witness for `expiry_hard_stop`: a spawn that expired at t=480, attempted
at t=500, in both services. -/
theorem expiry_hard_stop_witness :
    ((SpawnService.catch_spawn
        { spawns := [{ spawn_id := "s1", chat_id := 5, species := "pikachu",
                       species_id := 25, level := 7, is_shiny := false,
                       rarity := "common", spawned_at := 0, expires_at := 480,
                       is_caught := false }],
          pokemon := [], users := [] }
        "s1" 42 500 (.divInt 1 2) "p1").1.isCaptured = false) ∧
    ((RawSQLSpawnService.catch_spawn
        { db := { spawns := [{ spawn_id := "s1", chat_id := 5,
                               species := "pikachu", species_id := 25,
                               level := 7, is_shiny := false,
                               rarity := "common", spawned_at := 0,
                               expires_at := 480, is_caught := false }],
                  pokemon := [], users := [] },
          cache := [] }
        "s1" 42 500 (.divInt 1 2) "p1").1 = .disappeared) := by
  have h := expiry_hard_stop
    { spawns := [{ spawn_id := "s1", chat_id := 5, species := "pikachu",
                   species_id := 25, level := 7, is_shiny := false,
                   rarity := "common", spawned_at := 0, expires_at := 480,
                   is_caught := false }],
      pokemon := [], users := [] }
    { db := { spawns := [{ spawn_id := "s1", chat_id := 5, species := "pikachu",
                           species_id := 25, level := 7, is_shiny := false,
                           rarity := "common", spawned_at := 0, expires_at := 480,
                           is_caught := false }],
              pokemon := [], users := [] },
      cache := [] }
    "s1" 42 500 (.divInt 1 2) "p1" (by decide) (by decide)
  exact ⟨h.1.1, h.2.1⟩

theorem fast_find?_spec {l : List SpawnRec} {sid : String} {now : Int} {s : SpawnRec}
    (h : l.find? (fun t => t.spawn_id == sid && decide (now < t.expires_at)) = some s) :
    s ∈ l ∧ s.spawn_id = sid ∧ now < s.expires_at := by
  refine ⟨List.mem_of_find?_eq_some h, ?_⟩
  have hp := List.find?_some h
  simp only [Bool.and_eq_true, beq_iff_eq, decide_eq_true_eq] at hp
  exact hp

theorem slow_catch_noop_of_caught {db : DB} {sid : String} {s : SpawnRec}
    (uid : Int) (now : Int) (roll : ℚ) (pid : String)
    (hf : db.spawns.find? (fun t => t.spawn_id == sid) = some s)
    (hc : s.is_caught = true) :
    SpawnService.catch_spawn db sid uid now roll pid = (.alreadyCaught, db) := by
  simp [SpawnService.catch_spawn, hf, hc]

theorem fast_catch_noop_of_caught {st : RawSQLSpawnService.FastState} {sid : String}
    {now : Int} {s : SpawnRec} (uid : Int) (roll : ℚ) (pid : String)
    (hf : st.db.spawns.find? (fun t => t.spawn_id == sid && decide (now < t.expires_at)) = some s)
    (hc : s.is_caught = true) :
    RawSQLSpawnService.catch_spawn st sid uid now roll pid = (.alreadyCaught, st) := by
  simp [RawSQLSpawnService.catch_spawn, hf, hc]

theorem slow_catch_allCaught_noop {db : DB} {sid : String}
    (uid : Int) (now : Int) (roll : ℚ) (pid : String)
    (h : allCaughtFor sid db.spawns) :
    ((SpawnService.catch_spawn db sid uid now roll pid).1 = .alreadyCaught ∨
     (SpawnService.catch_spawn db sid uid now roll pid).1 = .notFound) ∧
    (SpawnService.catch_spawn db sid uid now roll pid).2 = db := by
  cases hf : db.spawns.find? (fun t => t.spawn_id == sid) with
  | none => simp [SpawnService.catch_spawn, hf]
  | some s =>
    obtain ⟨hmem, hsid⟩ := beq_spawn_id_of_find? hf
    have hc : s.is_caught = true := h s hmem hsid
    rw [slow_catch_noop_of_caught uid now roll pid hf hc]
    simp

theorem fast_catch_allCaught_noop {st : RawSQLSpawnService.FastState} {sid : String}
    (uid : Int) (now : Int) (roll : ℚ) (pid : String)
    (h : allCaughtFor sid st.db.spawns) :
    ((RawSQLSpawnService.catch_spawn st sid uid now roll pid).1 = .alreadyCaught ∨
     (RawSQLSpawnService.catch_spawn st sid uid now roll pid).1 = .disappeared) ∧
    (RawSQLSpawnService.catch_spawn st sid uid now roll pid).2 = st := by
  cases hf : st.db.spawns.find?
      (fun t => t.spawn_id == sid && decide (now < t.expires_at)) with
  | none => simp [RawSQLSpawnService.catch_spawn, hf]
  | some s =>
    obtain ⟨hmem, hsid, _⟩ := fast_find?_spec hf
    have hc : s.is_caught = true := h s hmem hsid
    rw [fast_catch_noop_of_caught uid roll pid hf hc]
    simp

/-- Counterexample to C7 as stated: in the fast service a spawn whose
`is_caught` flag is already true but whose `expires_at` has also passed is
filtered out by the `expires_at > NOW()` clause of the SELECT, so the call
returns the not-found outcome ("This Pokémon has disappeared!"), not the
already-resolved one. -/
theorem loser_atomicity_cex :
    (RawSQLSpawnService.catch_spawn
      { db := { spawns := [{ spawn_id := "s1", chat_id := 5, species := "pikachu",
                             species_id := 25, level := 7, is_shiny := false,
                             rarity := "common", spawned_at := 0, expires_at := 600,
                             is_caught := true, caught_by := some 3,
                             caught_at := some 50 }],
                pokemon := [], users := [] },
        cache := [] }
      "s1" 42 700 (.divInt 1 2) "p1").1 = .disappeared ∧
    RawSQLSpawnService.FOutcome.disappeared ≠ .alreadyCaught := by
  refine ⟨by decide, by decide⟩

/-- C7 (amended): a `catch_spawn` call against a spawn whose `is_caught` flag
is already true leaves all state unchanged — no spawn-row update, no
owned-creature insert, no user-stats update.  The outcome is the
already-resolved one whenever the caught row is visible to the call's SELECT
(always, in `SpawnService`; only while unexpired, in `RawSQLSpawnService`,
which otherwise reports the spawn as disappeared). -/
theorem loser_atomicity (db : DB) (st : RawSQLSpawnService.FastState)
    (sid : String) (uid : Int) (now : Int) (roll : ℚ) (pid : String) :
    (∀ s, db.spawns.find? (fun t => t.spawn_id == sid) = some s →
      s.is_caught = true →
      SpawnService.catch_spawn db sid uid now roll pid = (.alreadyCaught, db)) ∧
    (∀ s, st.db.spawns.find?
        (fun t => t.spawn_id == sid && decide (now < t.expires_at)) = some s →
      s.is_caught = true →
      RawSQLSpawnService.catch_spawn st sid uid now roll pid = (.alreadyCaught, st)) ∧
    (allCaughtFor sid st.db.spawns →
      ((RawSQLSpawnService.catch_spawn st sid uid now roll pid).1 = .alreadyCaught ∨
       (RawSQLSpawnService.catch_spawn st sid uid now roll pid).1 = .disappeared) ∧
      (RawSQLSpawnService.catch_spawn st sid uid now roll pid).2 = st) :=
  ⟨fun _ hf hc => slow_catch_noop_of_caught uid now roll pid hf hc,
   fun _ hf hc => fast_catch_noop_of_caught uid roll pid hf hc,
   fun h => fast_catch_allCaught_noop uid now roll pid h⟩

/-- Witness for `loser_atomicity`: a caught, unexpired spawn in both
services; the attempt is a no-op with the already-resolved outcome. -/
theorem loser_atomicity_witness :
    SpawnService.catch_spawn
      { spawns := [{ spawn_id := "s1", chat_id := 5, species := "pikachu",
                     species_id := 25, level := 7, is_shiny := false,
                     rarity := "common", spawned_at := 0, expires_at := 600,
                     is_caught := true, caught_by := some 3, caught_at := some 50 }],
        pokemon := [], users := [] }
      "s1" 42 100 (.divInt 1 2) "p1" =
      (.alreadyCaught,
        { spawns := [{ spawn_id := "s1", chat_id := 5, species := "pikachu",
                       species_id := 25, level := 7, is_shiny := false,
                       rarity := "common", spawned_at := 0, expires_at := 600,
                       is_caught := true, caught_by := some 3, caught_at := some 50 }],
          pokemon := [], users := [] }) ∧
    RawSQLSpawnService.catch_spawn
      { db := { spawns := [{ spawn_id := "s1", chat_id := 5, species := "pikachu",
                             species_id := 25, level := 7, is_shiny := false,
                             rarity := "common", spawned_at := 0, expires_at := 600,
                             is_caught := true, caught_by := some 3,
                             caught_at := some 50 }],
                pokemon := [], users := [] },
        cache := [] }
      "s1" 42 100 (.divInt 1 2) "p1" =
      (.alreadyCaught,
        { db := { spawns := [{ spawn_id := "s1", chat_id := 5, species := "pikachu",
                               species_id := 25, level := 7, is_shiny := false,
                               rarity := "common", spawned_at := 0, expires_at := 600,
                               is_caught := true, caught_by := some 3,
                               caught_at := some 50 }],
                  pokemon := [], users := [] },
          cache := [] }) := by
  have h := loser_atomicity
    { spawns := [{ spawn_id := "s1", chat_id := 5, species := "pikachu",
                   species_id := 25, level := 7, is_shiny := false,
                   rarity := "common", spawned_at := 0, expires_at := 600,
                   is_caught := true, caught_by := some 3, caught_at := some 50 }],
      pokemon := [], users := [] }
    { db := { spawns := [{ spawn_id := "s1", chat_id := 5, species := "pikachu",
                           species_id := 25, level := 7, is_shiny := false,
                           rarity := "common", spawned_at := 0, expires_at := 600,
                           is_caught := true, caught_by := some 3,
                           caught_at := some 50 }],
              pokemon := [], users := [] },
      cache := [] }
    "s1" 42 100 (.divInt 1 2) "p1"
  exact ⟨h.1 { spawn_id := "s1", chat_id := 5, species := "pikachu",
               species_id := 25, level := 7, is_shiny := false,
               rarity := "common", spawned_at := 0, expires_at := 600,
               is_caught := true, caught_by := some 3, caught_at := some 50 }
           (by decide) (by decide),
         h.2.1 { spawn_id := "s1", chat_id := 5, species := "pikachu",
                 species_id := 25, level := 7, is_shiny := false,
                 rarity := "common", spawned_at := 0, expires_at := 600,
                 is_caught := true, caught_by := some 3, caught_at := some 50 }
           (by decide) (by decide)⟩

theorem hasActiveSpawn_iff (db : DB) (chatId : Int) (now : Int) :
    SpawnService.hasActiveSpawn db chatId now = true ↔
      ∃ s ∈ db.spawns, s.chat_id = chatId ∧ s.is_caught = false ∧ now < s.expires_at := by
  simp [SpawnService.hasActiveSpawn, List.any_eq_true, Bool.and_eq_true,
    Bool.not_eq_true', and_assoc]

/-- C4: if a spawn exists for the channel with `is_caught` false and
`expires_at` in the future, `create_spawn` returns a not-created result
(`None`/`False`) and inserts no spawn row; if no such spawn exists (and, for
`SpawnService`, the catalog lookup succeeds), it returns a created result and
appends exactly one new spawn whose `expires_at` is the creation time plus
the fixed window (8 minutes for `SpawnService`, 10 for `RawSQLSpawnService`). -/
theorem duplicate_spawn_suppression
    (db : DB) (st : RawSQLSpawnService.FastState) (chatId : Int) (now : Int)
    (catalog : Nat → Option String) (sp1 fb lvl : Nat) (roll : ℚ) (sid : String)
    (speciesName : String) (spid lvl' : Nat) (roll' : ℚ) (rp sid' : String) :
    ((∃ s ∈ db.spawns, s.chat_id = chatId ∧ s.is_caught = false ∧ now < s.expires_at) →
      SpawnService.create_spawn db chatId now catalog sp1 fb lvl roll sid = (none, db)) ∧
    ((¬ ∃ s ∈ db.spawns, s.chat_id = chatId ∧ s.is_caught = false ∧ now < s.expires_at) →
      ∀ name, catalog sp1 = some name →
      ∃ spawn,
        (SpawnService.create_spawn db chatId now catalog sp1 fb lvl roll sid).1 = some spawn ∧
        (SpawnService.create_spawn db chatId now catalog sp1 fb lvl roll sid).2.spawns =
          db.spawns ++ [spawn] ∧
        spawn.chat_id = chatId ∧ spawn.spawned_at = now ∧
        spawn.expires_at = now + 480 ∧ spawn.is_caught = false) ∧
    ((∃ s ∈ st.db.spawns, s.chat_id = chatId ∧ s.is_caught = false ∧ now < s.expires_at) →
      RawSQLSpawnService.create_spawn st chatId now speciesName spid lvl' roll' rp sid' =
        (false, st)) ∧
    ((¬ ∃ s ∈ st.db.spawns, s.chat_id = chatId ∧ s.is_caught = false ∧ now < s.expires_at) →
      (RawSQLSpawnService.create_spawn st chatId now speciesName spid lvl' roll' rp sid').1 =
        true ∧
      ∃ spawn,
        (RawSQLSpawnService.create_spawn st chatId now speciesName spid lvl' roll' rp sid').2.db.spawns =
          st.db.spawns ++ [spawn] ∧
        spawn.chat_id = chatId ∧ spawn.spawned_at = now ∧
        spawn.expires_at = now + 600 ∧ spawn.is_caught = false) := by
  refine ⟨?_, ?_, ?_, ?_⟩
  · intro hex
    have hA : SpawnService.hasActiveSpawn db chatId now = true :=
      (hasActiveSpawn_iff db chatId now).mpr hex
    simp [SpawnService.create_spawn, hA]
  · intro hnex name hc
    have hA : SpawnService.hasActiveSpawn db chatId now = false := by
      rw [← Bool.not_eq_true, hasActiveSpawn_iff]; exact hnex
    simp only [SpawnService.create_spawn, hA, Bool.false_eq_true, if_false, hc]
    exact ⟨_, rfl, rfl, rfl, rfl, rfl, rfl⟩
  · intro hex
    have hA : SpawnService.hasActiveSpawn st.db chatId now = true :=
      (hasActiveSpawn_iff st.db chatId now).mpr hex
    simp [RawSQLSpawnService.create_spawn, hA]
  · intro hnex
    have hA : SpawnService.hasActiveSpawn st.db chatId now = false := by
      rw [← Bool.not_eq_true, hasActiveSpawn_iff]; exact hnex
    refine ⟨by simp [RawSQLSpawnService.create_spawn, hA], ?_⟩
    simp only [RawSQLSpawnService.create_spawn, hA, Bool.false_eq_true, if_false]
    exact ⟨_, rfl, rfl, rfl, rfl, rfl⟩

/-- Witness for `duplicate_spawn_suppression`: an empty store creates a spawn
expiring at `now + 480` (slow) / `now + 600` (fast); a store holding an active
spawn for the channel refuses. -/
theorem duplicate_spawn_suppression_witness :
    (SpawnService.create_spawn
        { spawns := [{ spawn_id := "s0", chat_id := 5, species := "eevee",
                       species_id := 133, level := 3, is_shiny := false,
                       rarity := "common", spawned_at := 0, expires_at := 480,
                       is_caught := false }],
          pokemon := [], users := [] }
        5 100 (fun _ => some "pikachu") 25 1 7 (.divInt 1 2) "s1" =
      (none,
        { spawns := [{ spawn_id := "s0", chat_id := 5, species := "eevee",
                       species_id := 133, level := 3, is_shiny := false,
                       rarity := "common", spawned_at := 0, expires_at := 480,
                       is_caught := false }],
          pokemon := [], users := [] })) ∧
    (∃ spawn,
      (SpawnService.create_spawn { spawns := [], pokemon := [], users := [] }
          5 100 (fun _ => some "pikachu") 25 1 7 (.divInt 1 2) "s1").1 = some spawn ∧
      (SpawnService.create_spawn { spawns := [], pokemon := [], users := [] }
          5 100 (fun _ => some "pikachu") 25 1 7 (.divInt 1 2) "s1").2.spawns = [] ++ [spawn] ∧
      spawn.chat_id = 5 ∧ spawn.spawned_at = 100 ∧
      spawn.expires_at = 100 + 480 ∧ spawn.is_caught = false) ∧
    ((RawSQLSpawnService.create_spawn
        { db := { spawns := [], pokemon := [], users := [] }, cache := [] }
        5 100 "mew" 151 9 (.divInt 1 2) "rare" "s2").1 = true) := by
  have h := duplicate_spawn_suppression
    { spawns := [{ spawn_id := "s0", chat_id := 5, species := "eevee",
                   species_id := 133, level := 3, is_shiny := false,
                   rarity := "common", spawned_at := 0, expires_at := 480,
                   is_caught := false }],
      pokemon := [], users := [] }
    { db := { spawns := [], pokemon := [], users := [] }, cache := [] }
    5 100 (fun _ => some "pikachu") 25 1 7 (.divInt 1 2) "s1"
    "mew" 151 9 (.divInt 1 2) "rare" "s2"
  have h2 := duplicate_spawn_suppression
    { spawns := [], pokemon := [], users := [] }
    { db := { spawns := [], pokemon := [], users := [] }, cache := [] }
    5 100 (fun _ => some "pikachu") 25 1 7 (.divInt 1 2) "s1"
    "mew" 151 9 (.divInt 1 2) "rare" "s2"
  refine ⟨h.1 ?_, h2.2.1 ?_ "pikachu" rfl, (h2.2.2.2 ?_).1⟩
  · exact ⟨{ spawn_id := "s0", chat_id := 5, species := "eevee",
             species_id := 133, level := 3, is_shiny := false,
             rarity := "common", spawned_at := 0, expires_at := 480,
             is_caught := false }, by decide, by decide, by decide, by decide⟩
  · simp
  · simp

/-- C8: when the catalog lookup for the initially chosen species id returns
no data, `create_spawn` retries with the fallback id, and the persisted spawn
(if any) carries the fallback id's payload; when the fallback lookup also
fails, it returns a not-created result and persists nothing — a spawn with
missing payload is never persisted. -/
theorem catalog_failure_fallback
    (db : DB) (chatId : Int) (now : Int) (catalog : Nat → Option String)
    (sp1 fb lvl : Nat) (roll : ℚ) (sid : String) :
    (catalog sp1 = none → ∀ name, catalog fb = some name →
      SpawnService.hasActiveSpawn db chatId now = false →
      ∃ spawn,
        (SpawnService.create_spawn db chatId now catalog sp1 fb lvl roll sid).1 = some spawn ∧
        (SpawnService.create_spawn db chatId now catalog sp1 fb lvl roll sid).2.spawns =
          db.spawns ++ [spawn] ∧
        spawn.species_id = fb ∧ spawn.species = name) ∧
    (catalog sp1 = none → catalog fb = none →
      SpawnService.create_spawn db chatId now catalog sp1 fb lvl roll sid = (none, db)) := by
  constructor
  · intro h1 name h2 hA
    simp only [SpawnService.create_spawn, hA, Bool.false_eq_true, if_false, h1, h2]
    exact ⟨_, rfl, rfl, rfl, rfl⟩
  · intro h1 h2
    by_cases hA : SpawnService.hasActiveSpawn db chatId now
    · simp [SpawnService.create_spawn, hA]
    · simp [SpawnService.create_spawn, hA, h1, h2]

/-- Witness for `catalog_failure_fallback`: primary id 9999 unknown, fallback
id 151 known; and a catalog that knows nothing creates nothing. -/
theorem catalog_failure_fallback_witness :
    (∃ spawn,
      (SpawnService.create_spawn { spawns := [], pokemon := [], users := [] }
        5 100 (fun i => if i == 151 then some "mew" else none)
        9999 151 7 (.divInt 1 2) "s1").1 = some spawn ∧
      (SpawnService.create_spawn { spawns := [], pokemon := [], users := [] }
        5 100 (fun i => if i == 151 then some "mew" else none)
        9999 151 7 (.divInt 1 2) "s1").2.spawns = [] ++ [spawn] ∧
      spawn.species_id = 151 ∧ spawn.species = "mew") ∧
    SpawnService.create_spawn { spawns := [], pokemon := [], users := [] }
        5 100 (fun _ => none) 9999 151 7 (.divInt 1 2) "s1" =
      (none, { spawns := [], pokemon := [], users := [] }) := by
  constructor
  · exact (catalog_failure_fallback { spawns := [], pokemon := [], users := [] }
      5 100 (fun i => if i == 151 then some "mew" else none)
      9999 151 7 (.divInt 1 2) "s1").1 (by decide) "mew" (by decide) (by decide)
  · exact (catalog_failure_fallback { spawns := [], pokemon := [], users := [] }
      5 100 (fun _ => none) 9999 151 7 (.divInt 1 2) "s1").2 rfl rfl

theorem foldl_latest_mem :
    ∀ (l : List SpawnRec) (acc : Option SpawnRec) (s : SpawnRec),
      l.foldl (fun acc s => match acc with
        | none => some s
        | some b => if s.spawned_at > b.spawned_at then some s else some b) acc = some s →
      acc = some s ∨ s ∈ l := by
  intro l
  induction l with
  | nil => intro acc s h; exact Or.inl h
  | cons x xs ih =>
    intro acc s h
    rcases ih _ s h with hstep | hmem
    · cases acc with
      | none =>
        simp only at hstep
        injection hstep with hx
        exact Or.inr (by rw [← hx]; exact List.mem_cons_self x xs)
      | some b =>
        simp only at hstep
        by_cases hlt : x.spawned_at > b.spawned_at
        · rw [if_pos hlt] at hstep
          injection hstep with hx
          exact Or.inr (by rw [← hx]; exact List.mem_cons_self x xs)
        · rw [if_neg hlt] at hstep
          exact Or.inl hstep
    · exact Or.inr (List.mem_cons_of_mem x hmem)

theorem latestActive_spec {spawns : List SpawnRec} {chatId : Int} {now : Int}
    {s : SpawnRec} (h : RawSQLSpawnService.latestActive spawns chatId now = some s) :
    s ∈ spawns ∧ s.chat_id = chatId ∧ s.is_caught = false ∧ now < s.expires_at := by
  unfold RawSQLSpawnService.latestActive at h
  rcases foldl_latest_mem _ none s h with habs | hmem
  · cases habs
  · have := List.mem_filter.mp hmem
    refine ⟨this.1, ?_⟩
    have hp := this.2
    simp only [Bool.and_eq_true, beq_iff_eq, Bool.not_eq_true', decide_eq_true_eq] at hp
    exact ⟨hp.1.1, hp.1.2, hp.2⟩

/-- Counterexample to C5 as stated: the cache entry for channel 5 points at a
spawn whose `expires_at` (600) is before the current time (700), and the
durable store has no active spawn for the channel — yet `get_active_spawn`
returns the cached entry instead of treating the hit as a miss. -/
theorem cache_expiry_revalidation_cex :
    (RawSQLSpawnService.get_active_spawn
      { db := { spawns := [{ spawn_id := "s1", chat_id := 5, species := "pikachu",
                             species_id := 25, level := 7, is_shiny := false,
                             rarity := "common", spawned_at := 0, expires_at := 600,
                             is_caught := false }],
                pokemon := [], users := [] },
        cache := [(5, { spawn_id := "s1", species := "pikachu", level := 7,
                        is_shiny := false, rarity := "common" })] }
      5 700).1 =
      some { spawn_id := "s1", species := "pikachu", level := 7,
             is_shiny := false, rarity := "common" } ∧
    (600 : Int) < 700 ∧
    RawSQLSpawnService.latestActive
      [{ spawn_id := "s1", chat_id := 5, species := "pikachu",
         species_id := 25, level := 7, is_shiny := false,
         rarity := "common", spawned_at := 0, expires_at := 600,
         is_caught := false }] 5 700 = none := by
  refine ⟨by decide, by decide, by decide⟩

/-- C5 (amended): a cache hit in `get_active_spawn` is returned directly,
with no expiry validation of any kind; only on a cache miss is the durable
store queried, and that store read filters by `expires_at > NOW()`, so every
spawn served from the store path is unexpired and uncaught. -/
theorem cache_hit_not_revalidated (st : RawSQLSpawnService.FastState)
    (chatId : Int) (now : Int) :
    (∀ c, st.cache.lookup chatId = some c →
      RawSQLSpawnService.get_active_spawn st chatId now = (some c, st)) ∧
    (st.cache.lookup chatId = none →
      (∀ s, RawSQLSpawnService.latestActive st.db.spawns chatId now = some s →
        (RawSQLSpawnService.get_active_spawn st chatId now).1 =
          some { spawn_id := s.spawn_id, species := s.species,
                 species_id := some s.species_id, level := s.level,
                 is_shiny := s.is_shiny, rarity := s.rarity,
                 spawned_at := some s.spawned_at } ∧
        s.chat_id = chatId ∧ s.is_caught = false ∧ now < s.expires_at) ∧
      (RawSQLSpawnService.latestActive st.db.spawns chatId now = none →
        RawSQLSpawnService.get_active_spawn st chatId now = (none, st))) := by
  constructor
  · intro c hc
    simp [RawSQLSpawnService.get_active_spawn, hc]
  · intro hmiss
    constructor
    · intro s hs
      have hspec := latestActive_spec hs
      refine ⟨?_, hspec.2.1, hspec.2.2.1, hspec.2.2.2⟩
      simp [RawSQLSpawnService.get_active_spawn, hmiss, hs]
    · intro hnone
      simp [RawSQLSpawnService.get_active_spawn, hmiss, hnone]

/-- Witness for `cache_hit_not_revalidated`: a populated cache entry is
returned as-is; with an empty cache the store row is served and is
unexpired. -/
theorem cache_hit_not_revalidated_witness :
    RawSQLSpawnService.get_active_spawn
      { db := { spawns := [], pokemon := [], users := [] },
        cache := [(5, { spawn_id := "s1", species := "pikachu", level := 7,
                        is_shiny := false, rarity := "common" })] }
      5 700 =
      (some { spawn_id := "s1", species := "pikachu", level := 7,
              is_shiny := false, rarity := "common" },
       { db := { spawns := [], pokemon := [], users := [] },
         cache := [(5, { spawn_id := "s1", species := "pikachu", level := 7,
                         is_shiny := false, rarity := "common" })] }) ∧
    (RawSQLSpawnService.get_active_spawn
      { db := { spawns := [{ spawn_id := "s2", chat_id := 5, species := "mew",
                             species_id := 151, level := 9, is_shiny := false,
                             rarity := "rare", spawned_at := 100, expires_at := 700,
                             is_caught := false }],
                pokemon := [], users := [] },
        cache := [] }
      5 200).1 =
      some { spawn_id := "s2", species := "mew", species_id := some 151,
             level := 9, is_shiny := false, rarity := "rare",
             spawned_at := some 100 } := by
  constructor
  · exact (cache_hit_not_revalidated
      { db := { spawns := [], pokemon := [], users := [] },
        cache := [(5, { spawn_id := "s1", species := "pikachu", level := 7,
                        is_shiny := false, rarity := "common" })] }
      5 700).1
      { spawn_id := "s1", species := "pikachu", level := 7,
        is_shiny := false, rarity := "common" } (by decide)
  · exact (((cache_hit_not_revalidated
      { db := { spawns := [{ spawn_id := "s2", chat_id := 5, species := "mew",
                             species_id := 151, level := 9, is_shiny := false,
                             rarity := "rare", spawned_at := 100, expires_at := 700,
                             is_caught := false }],
                pokemon := [], users := [] },
        cache := [] }
      5 200).2 (by decide)).1
      { spawn_id := "s2", chat_id := 5, species := "mew",
        species_id := 151, level := 9, is_shiny := false,
        rarity := "rare", spawned_at := 100, expires_at := 700,
        is_caught := false } (by decide)).1

/-- Counterexample to C3 as stated: a first `catch_spawn` call whose success
roll fails (roll `1/100 ≤ 0.02` in the fast service) returns the escape
outcome, and a second call on the very same spawn id then returns the
Captured path — the spawn was not consumed by the miss. -/
theorem consumed_on_miss_cex :
    (RawSQLSpawnService.catch_spawn
      { db := { spawns := [{ spawn_id := "s1", chat_id := 5, species := "pikachu",
                             species_id := 25, level := 7, is_shiny := false,
                             rarity := "common", spawned_at := 0, expires_at := 600,
                             is_caught := false }],
                pokemon := [], users := [] },
        cache := [] }
      "s1" 3 100 (.divInt 1 100) "pA").1 = .escaped ∧
    (RawSQLSpawnService.catch_spawn
      (RawSQLSpawnService.catch_spawn
        { db := { spawns := [{ spawn_id := "s1", chat_id := 5, species := "pikachu",
                               species_id := 25, level := 7, is_shiny := false,
                               rarity := "common", spawned_at := 0, expires_at := 600,
                               is_caught := false }],
                  pokemon := [], users := [] },
          cache := [] }
        "s1" 3 100 (.divInt 1 100) "pA").2
      "s1" 4 110 (.divInt 1 2) "pB").1.isCaptured = true := by
  refine ⟨by decide, by decide⟩

/-- C3 (amended): when the caller that won the slot fails its probabilistic
success roll, `catch_spawn` returns the escape outcome and leaves the entire
state unchanged — the spawn is NOT consumed; it stays active and a subsequent
`catch_spawn` call on the same spawn id may return Captured.  This holds for
both service variants. -/
theorem miss_leaves_spawn_open (db : DB) (st : RawSQLSpawnService.FastState)
    (sid : String) (uid : Int) (now : Int) (roll : ℚ) (pid : String) :
    (∀ s, db.spawns.find? (fun t => t.spawn_id == sid) = some s →
      s.is_caught = false → ¬(s.expires_at < now) →
      roll > SpawnService.catchRate s.rarity →
      SpawnService.catch_spawn db sid uid now roll pid = (.brokeFree, db)) ∧
    (∀ s, st.db.spawns.find?
        (fun t => t.spawn_id == sid && decide (now < t.expires_at)) = some s →
      s.is_caught = false → ¬(roll > Rat.divInt 2 100) →
      RawSQLSpawnService.catch_spawn st sid uid now roll pid = (.escaped, st)) := by
  constructor
  · intro s hf hc hexp hroll
    simp [SpawnService.catch_spawn, hf, hc, hexp, hroll]
  · intro s hf hc hroll
    simp [RawSQLSpawnService.catch_spawn, hf, hc, hroll]

/-- Witness for `miss_leaves_spawn_open`: concrete missed rolls in both
services leave the store untouched. -/
theorem miss_leaves_spawn_open_witness :
    SpawnService.catch_spawn
      { spawns := [{ spawn_id := "s1", chat_id := 5, species := "pikachu",
                     species_id := 25, level := 7, is_shiny := false,
                     rarity := "common", spawned_at := 0, expires_at := 600,
                     is_caught := false }],
        pokemon := [], users := [] }
      "s1" 42 100 (.divInt 99 100) "p1" =
      (.brokeFree,
        { spawns := [{ spawn_id := "s1", chat_id := 5, species := "pikachu",
                       species_id := 25, level := 7, is_shiny := false,
                       rarity := "common", spawned_at := 0, expires_at := 600,
                       is_caught := false }],
          pokemon := [], users := [] }) ∧
    RawSQLSpawnService.catch_spawn
      { db := { spawns := [{ spawn_id := "s1", chat_id := 5, species := "pikachu",
                             species_id := 25, level := 7, is_shiny := false,
                             rarity := "common", spawned_at := 0, expires_at := 600,
                             is_caught := false }],
                pokemon := [], users := [] },
        cache := [] }
      "s1" 42 100 (.divInt 1 100) "p1" =
      (.escaped,
        { db := { spawns := [{ spawn_id := "s1", chat_id := 5, species := "pikachu",
                               species_id := 25, level := 7, is_shiny := false,
                               rarity := "common", spawned_at := 0, expires_at := 600,
                               is_caught := false }],
                  pokemon := [], users := [] },
          cache := [] }) := by
  have h := miss_leaves_spawn_open
    { spawns := [{ spawn_id := "s1", chat_id := 5, species := "pikachu",
                   species_id := 25, level := 7, is_shiny := false,
                   rarity := "common", spawned_at := 0, expires_at := 600,
                   is_caught := false }],
      pokemon := [], users := [] }
    { db := { spawns := [{ spawn_id := "s1", chat_id := 5, species := "pikachu",
                           species_id := 25, level := 7, is_shiny := false,
                           rarity := "common", spawned_at := 0, expires_at := 600,
                           is_caught := false }],
              pokemon := [], users := [] },
      cache := [] }
    "s1" 42 100
  exact ⟨(h (.divInt 99 100) "p1").1
            { spawn_id := "s1", chat_id := 5, species := "pikachu",
              species_id := 25, level := 7, is_shiny := false,
              rarity := "common", spawned_at := 0, expires_at := 600,
              is_caught := false }
            (by decide) (by decide) (by decide) (by decide),
         (h (.divInt 1 100) "p1").2
            { spawn_id := "s1", chat_id := 5, species := "pikachu",
              species_id := 25, level := 7, is_shiny := false,
              rarity := "common", spawned_at := 0, expires_at := 600,
              is_caught := false }
            (by decide) (by decide) (by decide)⟩

theorem allCaughtFor_map_markCaught (uid : Int) (now : Int) (sid : String)
    (l : List SpawnRec) :
    allCaughtFor sid (l.map (SpawnService.markCaught uid now sid)) := by
  intro t ht hid
  obtain ⟨t0, ht0, rfl⟩ := List.mem_map.mp ht
  by_cases hb : (t0.spawn_id == sid) = true
  · simp [SpawnService.markCaught, hb]
  · exfalso
    have hid' : t0.spawn_id = sid := by
      simpa [SpawnService.markCaught, hb] using hid
    exact hb (beq_iff_eq.mpr hid')

theorem fast_catch_state_of_not_captured
    {st : RawSQLSpawnService.FastState} {sid : String} {uid : Int} {now : Int}
    {roll : ℚ} {pid : String}
    (h : (RawSQLSpawnService.catch_spawn st sid uid now roll pid).1.isCaptured = false) :
    (RawSQLSpawnService.catch_spawn st sid uid now roll pid).2 = st := by
  rcases hf : st.db.spawns.find?
      (fun t => t.spawn_id == sid && decide (now < t.expires_at)) with _ | s
  · simp [RawSQLSpawnService.catch_spawn, hf]
  · by_cases hc : s.is_caught
    · simp [RawSQLSpawnService.catch_spawn, hf, hc]
    · by_cases hroll : roll > Rat.divInt 2 100
      · simp [RawSQLSpawnService.catch_spawn, hf, hc, hroll,
          RawSQLSpawnService.FOutcome.isCaptured] at h
      · simp [RawSQLSpawnService.catch_spawn, hf, hc, hroll]

theorem fast_catch_captured_facts
    {st : RawSQLSpawnService.FastState} {sid : String} {uid : Int} {now : Int}
    {roll : ℚ} {pid : String}
    (h : (RawSQLSpawnService.catch_spawn st sid uid now roll pid).1.isCaptured = true) :
    (RawSQLSpawnService.catch_spawn st sid uid now roll pid).2.db.spawns =
      st.db.spawns.map (SpawnService.markCaught uid now sid) ∧
    (RawSQLSpawnService.catch_spawn st sid uid now roll pid).2.db.pokemon.length =
      st.db.pokemon.length + 1 := by
  rcases hf : st.db.spawns.find?
      (fun t => t.spawn_id == sid && decide (now < t.expires_at)) with _ | s
  · simp [RawSQLSpawnService.catch_spawn, hf,
      RawSQLSpawnService.FOutcome.isCaptured] at h
  · by_cases hc : s.is_caught
    · simp [RawSQLSpawnService.catch_spawn, hf, hc,
        RawSQLSpawnService.FOutcome.isCaptured] at h
    · by_cases hroll : roll > Rat.divInt 2 100
      · constructor <;> simp [RawSQLSpawnService.catch_spawn, hf, hc, hroll]
      · simp [RawSQLSpawnService.catch_spawn, hf, hc, hroll,
          RawSQLSpawnService.FOutcome.isCaptured] at h

theorem fast_runCatches_noop {sid : String} :
    ∀ (attempts : List CatchAttempt) (st : RawSQLSpawnService.FastState),
      allCaughtFor sid st.db.spawns →
      (RawSQLSpawnService.runCatches sid st attempts).1.countP
          RawSQLSpawnService.FOutcome.isCaptured = 0 ∧
      (RawSQLSpawnService.runCatches sid st attempts).2 = st := by
  intro attempts
  induction attempts with
  | nil => intro st h; simp [RawSQLSpawnService.runCatches]
  | cons a rest ih =>
    intro st h
    obtain ⟨hout, hst⟩ :=
      fast_catch_allCaught_noop a.userId a.now a.roll a.pokeId h
    have hni : (RawSQLSpawnService.catch_spawn st sid a.userId a.now a.roll
        a.pokeId).1.isCaptured = false := by
      rcases hout with h1 | h1 <;>
        simp [h1, RawSQLSpawnService.FOutcome.isCaptured]
    simp only [RawSQLSpawnService.runCatches]
    rw [hst]
    obtain ⟨ih1, ih2⟩ := ih st h
    exact ⟨by simp [List.countP_cons, hni, ih1], ih2⟩

theorem fast_runCatches_at_most_one {sid : String} :
    ∀ (attempts : List CatchAttempt) (st : RawSQLSpawnService.FastState),
      (RawSQLSpawnService.runCatches sid st attempts).1.countP
          RawSQLSpawnService.FOutcome.isCaptured ≤ 1 ∧
      (RawSQLSpawnService.runCatches sid st attempts).2.db.pokemon.length =
        st.db.pokemon.length +
          (RawSQLSpawnService.runCatches sid st attempts).1.countP
            RawSQLSpawnService.FOutcome.isCaptured := by
  intro attempts
  induction attempts with
  | nil => intro st; simp [RawSQLSpawnService.runCatches]
  | cons a rest ih =>
    intro st
    simp only [RawSQLSpawnService.runCatches]
    by_cases hc : (RawSQLSpawnService.catch_spawn st sid a.userId a.now a.roll
        a.pokeId).1.isCaptured = true
    · obtain ⟨hspawns, hlen⟩ := fast_catch_captured_facts hc
      have hall : allCaughtFor sid
          (RawSQLSpawnService.catch_spawn st sid a.userId a.now a.roll
            a.pokeId).2.db.spawns := by
        rw [hspawns]; exact allCaughtFor_map_markCaught a.userId a.now sid _
      obtain ⟨hcnt, hst⟩ := fast_runCatches_noop rest _ hall
      constructor
      · simp [List.countP_cons, hcnt, hc]
      · rw [hst, List.countP_cons, hcnt]
        simp [hc, hlen]
    · have hcf : (RawSQLSpawnService.catch_spawn st sid a.userId a.now a.roll
          a.pokeId).1.isCaptured = false := by simpa using hc
      have hst := fast_catch_state_of_not_captured hcf
      rw [hst]
      obtain ⟨ih1, ih2⟩ := ih st
      constructor
      · simp [List.countP_cons, hcf, ih1]
      · simp [List.countP_cons, hcf, ih2]

theorem fast_runCatches_exactly_one {sid : String} :
    ∀ (attempts : List CatchAttempt) (st : RawSQLSpawnService.FastState)
      (s0 : SpawnRec),
      (∀ a ∈ attempts, st.db.spawns.find?
        (fun t => t.spawn_id == sid && decide (a.now < t.expires_at)) = some s0) →
      s0.is_caught = false →
      (∃ a ∈ attempts, a.roll > Rat.divInt 2 100) →
      (RawSQLSpawnService.runCatches sid st attempts).1.countP
        RawSQLSpawnService.FOutcome.isCaptured = 1 := by
  intro attempts
  induction attempts with
  | nil =>
    intro st s0 _ _ hex
    obtain ⟨a, ha, _⟩ := hex
    exact absurd ha (List.not_mem_nil a)
  | cons a rest ih =>
    intro st s0 hav hc hex
    have hfind := hav a (List.mem_cons_self a rest)
    simp only [RawSQLSpawnService.runCatches]
    by_cases hroll : a.roll > Rat.divInt 2 100
    · have hc1 : (RawSQLSpawnService.catch_spawn st sid a.userId a.now a.roll
          a.pokeId).1.isCaptured = true := by
        simp [RawSQLSpawnService.catch_spawn, hfind, hc, hroll,
          RawSQLSpawnService.FOutcome.isCaptured]
      obtain ⟨hspawns, _⟩ := fast_catch_captured_facts hc1
      have hall : allCaughtFor sid
          (RawSQLSpawnService.catch_spawn st sid a.userId a.now a.roll
            a.pokeId).2.db.spawns := by
        rw [hspawns]; exact allCaughtFor_map_markCaught a.userId a.now sid _
      obtain ⟨hcnt, _⟩ := fast_runCatches_noop rest _ hall
      simp [List.countP_cons, hc1, hcnt]
    · have heq : RawSQLSpawnService.catch_spawn st sid a.userId a.now a.roll
          a.pokeId = (.escaped, st) := by
        simp [RawSQLSpawnService.catch_spawn, hfind, hc, hroll]
      have hex' : ∃ b ∈ rest, b.roll > Rat.divInt 2 100 := by
        rcases hex with ⟨b, hb, hbr⟩
        rcases List.mem_cons.mp hb with rfl | hb'
        · exact absurd hbr hroll
        · exact ⟨b, hb', hbr⟩
      have hrest := ih st s0 (fun b hb => hav b (List.mem_cons_of_mem a hb)) hc hex'
      rw [heq]
      simp [List.countP_cons, RawSQLSpawnService.FOutcome.isCaptured, hrest]

theorem slow_catch_state_of_not_captured
    {db : DB} {sid : String} {uid : Int} {now : Int} {roll : ℚ} {pid : String}
    (h : (SpawnService.catch_spawn db sid uid now roll pid).1.isCaptured = false) :
    (SpawnService.catch_spawn db sid uid now roll pid).2 = db := by
  rcases hf : db.spawns.find? (fun t => t.spawn_id == sid) with _ | s
  · simp [SpawnService.catch_spawn, hf]
  · by_cases hc : s.is_caught
    · simp [SpawnService.catch_spawn, hf, hc]
    · by_cases hexp : s.expires_at < now
      · simp [SpawnService.catch_spawn, hf, hc, hexp]
      · by_cases hroll : roll > SpawnService.catchRate s.rarity
        · simp [SpawnService.catch_spawn, hf, hc, hexp, hroll]
        · simp [SpawnService.catch_spawn, hf, hc, hexp, hroll,
            SpawnService.Outcome.isCaptured] at h

theorem slow_catch_captured_facts
    {db : DB} {sid : String} {uid : Int} {now : Int} {roll : ℚ} {pid : String}
    (h : (SpawnService.catch_spawn db sid uid now roll pid).1.isCaptured = true) :
    (SpawnService.catch_spawn db sid uid now roll pid).2.spawns =
      db.spawns.map (SpawnService.markCaught uid now sid) ∧
    (SpawnService.catch_spawn db sid uid now roll pid).2.pokemon.length =
      db.pokemon.length + 1 := by
  rcases hf : db.spawns.find? (fun t => t.spawn_id == sid) with _ | s
  · simp [SpawnService.catch_spawn, hf, SpawnService.Outcome.isCaptured] at h
  · by_cases hc : s.is_caught
    · simp [SpawnService.catch_spawn, hf, hc, SpawnService.Outcome.isCaptured] at h
    · by_cases hexp : s.expires_at < now
      · simp [SpawnService.catch_spawn, hf, hc, hexp,
          SpawnService.Outcome.isCaptured] at h
      · by_cases hroll : roll > SpawnService.catchRate s.rarity
        · simp [SpawnService.catch_spawn, hf, hc, hexp, hroll,
            SpawnService.Outcome.isCaptured] at h
        · constructor <;> simp [SpawnService.catch_spawn, hf, hc, hexp, hroll]

theorem slow_runCatches_noop {sid : String} :
    ∀ (attempts : List CatchAttempt) (db : DB),
      allCaughtFor sid db.spawns →
      (SpawnService.runCatches sid db attempts).1.countP
          SpawnService.Outcome.isCaptured = 0 ∧
      (SpawnService.runCatches sid db attempts).2 = db := by
  intro attempts
  induction attempts with
  | nil => intro db h; simp [SpawnService.runCatches]
  | cons a rest ih =>
    intro db h
    obtain ⟨hout, hst⟩ :=
      slow_catch_allCaught_noop a.userId a.now a.roll a.pokeId h
    have hni : (SpawnService.catch_spawn db sid a.userId a.now a.roll
        a.pokeId).1.isCaptured = false := by
      rcases hout with h1 | h1 <;>
        simp [h1, SpawnService.Outcome.isCaptured]
    simp only [SpawnService.runCatches]
    rw [hst]
    obtain ⟨ih1, ih2⟩ := ih db h
    exact ⟨by simp [List.countP_cons, hni, ih1], ih2⟩

theorem slow_runCatches_at_most_one {sid : String} :
    ∀ (attempts : List CatchAttempt) (db : DB),
      (SpawnService.runCatches sid db attempts).1.countP
          SpawnService.Outcome.isCaptured ≤ 1 ∧
      (SpawnService.runCatches sid db attempts).2.pokemon.length =
        db.pokemon.length +
          (SpawnService.runCatches sid db attempts).1.countP
            SpawnService.Outcome.isCaptured := by
  intro attempts
  induction attempts with
  | nil => intro db; simp [SpawnService.runCatches]
  | cons a rest ih =>
    intro db
    simp only [SpawnService.runCatches]
    by_cases hc : (SpawnService.catch_spawn db sid a.userId a.now a.roll
        a.pokeId).1.isCaptured = true
    · obtain ⟨hspawns, hlen⟩ := slow_catch_captured_facts hc
      have hall : allCaughtFor sid
          (SpawnService.catch_spawn db sid a.userId a.now a.roll
            a.pokeId).2.spawns := by
        rw [hspawns]; exact allCaughtFor_map_markCaught a.userId a.now sid _
      obtain ⟨hcnt, hst⟩ := slow_runCatches_noop rest _ hall
      constructor
      · simp [List.countP_cons, hcnt, hc]
      · rw [hst, List.countP_cons, hcnt]
        simp [hc, hlen]
    · have hcf : (SpawnService.catch_spawn db sid a.userId a.now a.roll
          a.pokeId).1.isCaptured = false := by simpa using hc
      have hst := slow_catch_state_of_not_captured hcf
      rw [hst]
      obtain ⟨ih1, ih2⟩ := ih db
      constructor
      · simp [List.countP_cons, hcf, ih1]
      · simp [List.countP_cons, hcf, ih2]

theorem slow_runCatches_exactly_one {sid : String} :
    ∀ (attempts : List CatchAttempt) (db : DB) (s0 : SpawnRec),
      db.spawns.find? (fun t => t.spawn_id == sid) = some s0 →
      s0.is_caught = false →
      (∀ a ∈ attempts, ¬(s0.expires_at < a.now)) →
      (∃ a ∈ attempts, ¬(a.roll > SpawnService.catchRate s0.rarity)) →
      (SpawnService.runCatches sid db attempts).1.countP
        SpawnService.Outcome.isCaptured = 1 := by
  intro attempts
  induction attempts with
  | nil =>
    intro db s0 _ _ _ hex
    obtain ⟨a, ha, _⟩ := hex
    exact absurd ha (List.not_mem_nil a)
  | cons a rest ih =>
    intro db s0 hfind hc hexp hex
    have hexpa := hexp a (List.mem_cons_self a rest)
    simp only [SpawnService.runCatches]
    by_cases hroll : a.roll > SpawnService.catchRate s0.rarity
    · have heq : SpawnService.catch_spawn db sid a.userId a.now a.roll
          a.pokeId = (.brokeFree, db) := by
        simp [SpawnService.catch_spawn, hfind, hc, hexpa, hroll]
      have hex' : ∃ b ∈ rest, ¬(b.roll > SpawnService.catchRate s0.rarity) := by
        rcases hex with ⟨b, hb, hbr⟩
        rcases List.mem_cons.mp hb with rfl | hb'
        · exact absurd hroll hbr
        · exact ⟨b, hb', hbr⟩
      have hrest := ih db s0 hfind hc
        (fun b hb => hexp b (List.mem_cons_of_mem a hb)) hex'
      rw [heq]
      simp [List.countP_cons, SpawnService.Outcome.isCaptured, hrest]
    · have hc1 : (SpawnService.catch_spawn db sid a.userId a.now a.roll
          a.pokeId).1.isCaptured = true := by
        simp [SpawnService.catch_spawn, hfind, hc, hexpa, hroll,
          SpawnService.Outcome.isCaptured]
      obtain ⟨hspawns, _⟩ := slow_catch_captured_facts hc1
      have hall : allCaughtFor sid
          (SpawnService.catch_spawn db sid a.userId a.now a.roll
            a.pokeId).2.spawns := by
        rw [hspawns]; exact allCaughtFor_map_markCaught a.userId a.now sid _
      obtain ⟨hcnt, _⟩ := slow_runCatches_noop rest _ hall
      simp [List.countP_cons, hc1, hcnt]

/-- C1: capture exclusivity.  With each `catch_spawn` transaction atomic, any
serialization of K concurrent calls against the same spawn id (the attempt
list and its order are universally quantified, covering every K ≥ 2) yields
at most one Captured-path winner; exactly one when the spawn is active and
available to each attempt and at least one attempt passes its success roll
(the probabilistic miss sub-outcome); every loser observes an
already-resolved or miss (or not-found) outcome; and the number of
owned-creature (pokemon) records grows by exactly the number of Captured
outcomes — never more than one, so no duplicates.  Both service variants. -/
theorem capture_exclusivity (sid : String) (attempts : List CatchAttempt)
    (st : RawSQLSpawnService.FastState) (db : DB) :
    (RawSQLSpawnService.runCatches sid st attempts).1.countP
        RawSQLSpawnService.FOutcome.isCaptured ≤ 1 ∧
    (RawSQLSpawnService.runCatches sid st attempts).2.db.pokemon.length =
      st.db.pokemon.length +
        (RawSQLSpawnService.runCatches sid st attempts).1.countP
          RawSQLSpawnService.FOutcome.isCaptured ∧
    (∀ s0, (∀ a ∈ attempts, st.db.spawns.find?
        (fun t => t.spawn_id == sid && decide (a.now < t.expires_at)) = some s0) →
      s0.is_caught = false →
      (∃ a ∈ attempts, a.roll > Rat.divInt 2 100) →
      (RawSQLSpawnService.runCatches sid st attempts).1.countP
        RawSQLSpawnService.FOutcome.isCaptured = 1) ∧
    (∀ r ∈ (RawSQLSpawnService.runCatches sid st attempts).1,
      r.isCaptured = false →
      r = .alreadyCaught ∨ r = .escaped ∨ r = .disappeared) ∧
    (SpawnService.runCatches sid db attempts).1.countP
        SpawnService.Outcome.isCaptured ≤ 1 ∧
    (SpawnService.runCatches sid db attempts).2.pokemon.length =
      db.pokemon.length +
        (SpawnService.runCatches sid db attempts).1.countP
          SpawnService.Outcome.isCaptured ∧
    (∀ s0, db.spawns.find? (fun t => t.spawn_id == sid) = some s0 →
      s0.is_caught = false →
      (∀ a ∈ attempts, ¬(s0.expires_at < a.now)) →
      (∃ a ∈ attempts, ¬(a.roll > SpawnService.catchRate s0.rarity)) →
      (SpawnService.runCatches sid db attempts).1.countP
        SpawnService.Outcome.isCaptured = 1) ∧
    (∀ r ∈ (SpawnService.runCatches sid db attempts).1,
      r.isCaptured = false →
      r = .alreadyCaught ∨ r = .fled ∨ r = .brokeFree ∨ r = .notFound) := by
  refine ⟨(fast_runCatches_at_most_one attempts st).1,
          (fast_runCatches_at_most_one attempts st).2,
          fun s0 hav hc hex => fast_runCatches_exactly_one attempts st s0 hav hc hex,
          ?_,
          (slow_runCatches_at_most_one attempts db).1,
          (slow_runCatches_at_most_one attempts db).2,
          fun s0 hf hc hexp hex =>
            slow_runCatches_exactly_one attempts db s0 hf hc hexp hex,
          ?_⟩
  · intro r _ hrf
    cases r <;> simp_all [RawSQLSpawnService.FOutcome.isCaptured]
  · intro r _ hrf
    cases r <;> simp_all [SpawnService.Outcome.isCaptured]

/-- Witness for `capture_exclusivity`: two simultaneous catchers, both with
passing rolls, against one active spawn — exactly one Captured outcome in
each service variant. -/
theorem capture_exclusivity_witness :
    (RawSQLSpawnService.runCatches "s1"
      { db := { spawns := [{ spawn_id := "s1", chat_id := 5, species := "pikachu",
                             species_id := 25, level := 7, is_shiny := false,
                             rarity := "common", spawned_at := 0, expires_at := 600,
                             is_caught := false }],
                pokemon := [], users := [] },
        cache := [] }
      [⟨3, 100, .divInt 1 2, "pA"⟩, ⟨4, 100, .divInt 3 4, "pB"⟩]).1.countP
        RawSQLSpawnService.FOutcome.isCaptured = 1 ∧
    (SpawnService.runCatches "s1"
      { spawns := [{ spawn_id := "s1", chat_id := 5, species := "pikachu",
                     species_id := 25, level := 7, is_shiny := false,
                     rarity := "common", spawned_at := 0, expires_at := 600,
                     is_caught := false }],
        pokemon := [], users := [] }
      [⟨3, 100, .divInt 1 2, "pA"⟩, ⟨4, 100, .divInt 3 4, "pB"⟩]).1.countP
        SpawnService.Outcome.isCaptured = 1 := by
  have h := capture_exclusivity "s1"
    [⟨3, 100, .divInt 1 2, "pA"⟩, ⟨4, 100, .divInt 3 4, "pB"⟩]
    { db := { spawns := [{ spawn_id := "s1", chat_id := 5, species := "pikachu",
                           species_id := 25, level := 7, is_shiny := false,
                           rarity := "common", spawned_at := 0, expires_at := 600,
                           is_caught := false }],
              pokemon := [], users := [] },
      cache := [] }
    { spawns := [{ spawn_id := "s1", chat_id := 5, species := "pikachu",
                   species_id := 25, level := 7, is_shiny := false,
                   rarity := "common", spawned_at := 0, expires_at := 600,
                   is_caught := false }],
      pokemon := [], users := [] }
  refine ⟨h.2.2.1 { spawn_id := "s1", chat_id := 5, species := "pikachu",
                    species_id := 25, level := 7, is_shiny := false,
                    rarity := "common", spawned_at := 0, expires_at := 600,
                    is_caught := false }
            (by decide) (by decide)
            ⟨⟨3, 100, .divInt 1 2, "pA"⟩, by decide, by decide⟩,
          h.2.2.2.2.2.2.1 { spawn_id := "s1", chat_id := 5, species := "pikachu",
                            species_id := 25, level := 7, is_shiny := false,
                            rarity := "common", spawned_at := 0, expires_at := 600,
                            is_caught := false }
            (by decide) (by decide) (by decide)
            ⟨⟨3, 100, .divInt 1 2, "pA"⟩, by decide, by decide⟩⟩
